import Mathlib

/-!
Verification of the keyshade authentication core against its specification.

The repository source under verification is the NestJS auth controller
(apps/api/src/auth/controller/auth.controller.ts).  The controller is the
transport adapter of a small identity-resolution and session-issuance core
(OtpStore, IdentityResolver, SessionIssuer, AuthCore).  The controller code is
embedded directly from the source; the core collaborators (AuthService,
resolver, issuer, OTP store), whose implementations are not part of the
source tree, are modelled from the specification, each such definition
carrying a doc comment that says so.
-/

/-- Error kinds of the core, from the error-handling design of the spec. -/
inductive AuthError where
  | InvalidInput
  | OtpNotFound
  | OtpExpired
  | OtpMismatch
  | OtpAttemptsExhausted
  | ProviderDisabled
  | MissingProviderEmail
  | ProviderConflict
  | SessionIssuanceFailure
deriving DecidableEq

/-- The AuthProvider enum used by the controller (from @prisma/client). -/
inductive AuthProvider where
  | GITHUB
  | GITLAB
  | GOOGLE
deriving DecidableEq

/-- Modelled from the spec: a pending OTP challenge (data model section),
keyed by email, with a secret code, an expiry timestamp and a bounded
attempt counter. -/
structure PendingOtp where
  email : String
  code : String
  expiresAt : Nat
  attemptsRemaining : Nat
deriving DecidableEq

/-- Modelled from the spec: the OtpStore holds pending challenges keyed by
email; at most one live challenge per email is an invariant, not a
representation constraint. -/
abbrev OtpStore := List PendingOtp

/-- Modelled from the spec: OTP expiry policy, short-lived, minutes-scale. -/
def otpTtl : Nat := 300

/-- Modelled from the spec: the bounded attempt counter reset on creation. -/
def maxOtpAttempts : Nat := 3

/-- Modelled from the spec: look up the pending challenge for an email. -/
def lookupOtp (s : OtpStore) (email : String) : Option PendingOtp :=
  s.find? (fun p => p.email == email)

/-- Modelled from the spec: discard the pending challenge for an email. -/
def removeOtp (s : OtpStore) (email : String) : OtpStore :=
  s.filter (fun p => p.email != email)

/-- Modelled from the spec: decrement the attempt counter of the pending
challenge for an email, leaving other entries alone. -/
def decrementOtp (s : OtpStore) (email : String) : OtpStore :=
  s.map (fun p =>
    if p.email == email then
      { p with attemptsRemaining := p.attemptsRemaining - 1 }
    else p)

/-- Modelled from the spec: OtpStore.Create generates a fresh secret
(passed in by the entropy source), overwrites any existing pending
challenge for that email, sets the expiry and resets the attempt
counter. -/
def CreateOtp (s : OtpStore) (now : Nat) (email code : String) : OtpStore :=
  { email := email, code := code, expiresAt := now + otpTtl,
    attemptsRemaining := maxOtpAttempts } :: removeOtp s email

/-- Modelled from the spec: OtpStore.Consume looks up the pending challenge;
fails with OtpNotFound if none exists; fails with OtpExpired past the
expiry, discarding the record; on match discards the record and succeeds;
on mismatch decrements the attempt counter and fails with OtpMismatch, or
with OtpAttemptsExhausted when the counter reaches zero, discarding the
record to force re-issuance. -/
def Consume (s : OtpStore) (now : Nat) (email candidateCode : String) :
    Except AuthError Unit × OtpStore :=
  match lookupOtp s email with
  | none => (Except.error AuthError.OtpNotFound, s)
  | some p =>
    if p.expiresAt < now then
      (Except.error AuthError.OtpExpired, removeOtp s email)
    else if p.code == candidateCode then
      (Except.ok (), removeOtp s email)
    else if p.attemptsRemaining - 1 = 0 then
      (Except.error AuthError.OtpAttemptsExhausted, removeOtp s email)
    else
      (Except.error AuthError.OtpMismatch, decrementOtp s email)

/-- Modelled from the spec: a canonical user record with stable userId,
unique email, last-writer-wins profile fields, and the set of linked
OAuth providers. -/
structure UserIdentity where
  userId : Nat
  email : String
  displayName : String
  avatarUrl : Option String
  linkedProviders : List (AuthProvider × String)
deriving DecidableEq

/-- Modelled from the spec: the identity store, a list of user records plus
the next fresh userId. -/
structure IdentityStore where
  users : List UserIdentity
  nextId : Nat
deriving DecidableEq

/-- Each email maps to exactly one userId: the emails of the records in the
store are pairwise distinct. -/
def EmailsUnique (s : IdentityStore) : Prop :=
  (s.users.map UserIdentity.email).Nodup

/-- A (provider, providerSubjectId) pair maps to at most one userId. -/
def PairsUnique (s : IdentityStore) : Prop :=
  ∀ u ∈ s.users, ∀ v ∈ s.users, ∀ pr ∈ u.linkedProviders,
    pr ∈ v.linkedProviders → u.userId = v.userId

instance (s : IdentityStore) : Decidable (EmailsUnique s) := by
  unfold EmailsUnique; infer_instance

instance (s : IdentityStore) : Decidable (PairsUnique s) := by
  unfold PairsUnique; infer_instance

/-- Modelled from the spec: replace the record holding the given email. -/
def IdentityStore.updateByEmail (s : IdentityStore) (u : UserIdentity) :
    IdentityStore :=
  { users := s.users.map (fun v => if v.email == u.email then u else v),
    nextId := s.nextId }

/-- Modelled from the spec: IdentityResolver.ResolveByEmail returns the
existing identity for the email or creates a new one if the email is
unseen; used by the OTP flow, where no provider-conflict check is
needed. -/
def ResolveByEmail (s : IdentityStore) (email : String) :
    UserIdentity × IdentityStore :=
  match s.users.find? (fun u => u.email == email) with
  | some u => (u, s)
  | none =>
    let u : UserIdentity :=
      { userId := s.nextId, email := email, displayName := "",
        avatarUrl := none, linkedProviders := [] }
    (u, { users := s.users ++ [u], nextId := s.nextId + 1 })

/-- Modelled from the spec: IdentityResolver.ResolveOrLink, used by the
OAuth flow.  If an identity exists for the email with this
(provider, providerSubjectId) already linked, refresh the profile and
return it; if an identity exists but was established via a different
provider and policy forbids silent cross-provider linking, fail with
ProviderConflict; if policy permits linking, add the pair and refresh;
if no identity exists, create one seeded with this single pair. -/
def ResolveOrLink (s : IdentityStore) (allowLinking : Bool) (email : String)
    (provider : AuthProvider) (providerSubjectId displayName : String)
    (avatarUrl : Option String) :
    Except AuthError UserIdentity × IdentityStore :=
  match s.users.find? (fun u => u.email == email) with
  | some u =>
    if (provider, providerSubjectId) ∈ u.linkedProviders then
      let u' := { u with displayName := displayName, avatarUrl := avatarUrl }
      (Except.ok u', s.updateByEmail u')
    else if allowLinking then
      let u' := { u with
        displayName := displayName
        avatarUrl := avatarUrl
        linkedProviders := (provider, providerSubjectId) :: u.linkedProviders }
      (Except.ok u', s.updateByEmail u')
    else
      (Except.error AuthError.ProviderConflict, s)
  | none =>
    let u : UserIdentity :=
      { userId := s.nextId, email := email, displayName := displayName,
        avatarUrl := avatarUrl,
        linkedProviders := [(provider, providerSubjectId)] }
    (Except.ok u, { users := s.users ++ [u], nextId := s.nextId + 1 })

/-- Verification failures of SessionIssuer.Verify. -/
inductive SessionVerifyError where
  | Invalid
  | Expired
deriving DecidableEq

/-- Modelled from the spec: session lifetime policy. -/
def sessionTtl : Nat := 86400

/-- Modelled from the spec: an opaque session token cryptographically bound
to a userId and an expiry; the MAC stands in for the keyed hash computed
from the issuer secret. -/
structure SessionToken where
  userId : Nat
  expiresAt : Nat
  mac : Nat
deriving DecidableEq

/-- Modelled from the spec: the keyed binding of userId and expiry to the
issuer secret; injective pairing stands in for the HMAC. -/
def macSign (secret userId expiresAt : Nat) : Nat :=
  Nat.pair secret (Nat.pair userId expiresAt)

/-- Modelled from the spec: a session with its token and validity window. -/
structure Session where
  token : SessionToken
  issuedAt : Nat
  expiresAt : Nat
deriving DecidableEq

/-- Modelled from the spec: SessionIssuer.Issue mints a token bound to the
userId and an expiry, unguessable without the issuer secret. -/
def Issue (secret now userId : Nat) : Session :=
  { token := { userId := userId, expiresAt := now + sessionTtl,
               mac := macSign secret userId (now + sessionTtl) },
    issuedAt := now, expiresAt := now + sessionTtl }

/-- Modelled from the spec: SessionIssuer.Verify is the inverse operation,
failing with Invalid on a forged MAC and with Expired past the expiry. -/
def Verify (secret now : Nat) (t : SessionToken) :
    Except SessionVerifyError Nat :=
  if t.mac ≠ macSign secret t.userId t.expiresAt then
    Except.error SessionVerifyError.Invalid
  else if t.expiresAt < now then
    Except.error SessionVerifyError.Expired
  else
    Except.ok t.userId

/-- Modelled from the spec: the state shared by the AuthCore flows, the OTP
store and the identity store. -/
structure CoreState where
  otps : OtpStore
  ids : IdentityStore
deriving DecidableEq

/-- Modelled from the spec: AuthCore.RequestOtp calls OtpStore.Create and
dispatches the code out of band; it touches no identity state. -/
def RequestOtp (st : CoreState) (now : Nat) (email code : String) :
    CoreState :=
  { st with otps := CreateOtp st.otps now email code }

/-- Modelled from the spec: AuthCore.ConfirmOtp calls OtpStore.Consume; on
success resolves the identity by email and issues a session; on any
OtpStore failure it propagates the error kind and creates no session. -/
def ConfirmOtp (st : CoreState) (secret now : Nat) (email candidate : String) :
    Except AuthError Session × CoreState :=
  match Consume st.otps now email candidate with
  | (Except.ok _, otps') =>
    let r := ResolveByEmail st.ids email
    (Except.ok (Issue secret now r.1.userId), { otps := otps', ids := r.2 })
  | (Except.error e, otps') =>
    (Except.error e, { otps := otps', ids := st.ids })

/-- Modelled from the spec: AuthCore.CompleteOAuth requires a non-empty
email (MissingProviderEmail otherwise), calls ResolveOrLink, and on
success issues a session. -/
def CompleteOAuth (st : CoreState) (allowLinking : Bool) (secret now : Nat)
    (email : String) (provider : AuthProvider)
    (providerSubjectId displayName : String) (avatarUrl : Option String) :
    Except AuthError (UserIdentity × Session) × CoreState :=
  if email = "" then
    (Except.error AuthError.MissingProviderEmail, st)
  else
    match ResolveOrLink st.ids allowLinking email provider providerSubjectId
        displayName avatarUrl with
    | (Except.ok u, ids') =>
      (Except.ok (u, Issue secret now u.userId), { st with ids := ids' })
    | (Except.error e, ids') =>
      (Except.error e, { st with ids := ids' })

/-! ### The controller, embedded from the source

The OAuth callbacks of auth.controller.ts destructure the passport profile
(emails, displayName, photos or avatarUrl), reject on an empty email list,
and hand off to AuthService.handleOAuthLogin — directly (GitHub, errors
propagating to the global handler) or through handleOAuthProcess
(GitLab, Google), whose try/catch converts any login error into a fixed
failure redirect.  The login service itself is abstract here: the
callbacks are parametric in the login function. -/

/-- One entry of the emails list of the passport profile. -/
structure OAuthEmail where
  value : String
deriving DecidableEq

/-- One entry of the photos list of the passport profile. -/
structure OAuthPhoto where
  value : String
deriving DecidableEq

/-- The req.user object the callbacks destructure: emails, displayName and
photos (GitHub, Google) or avatarUrl (GitLab). -/
structure OAuthReqUser where
  emails : List OAuthEmail
  displayName : String
  photos : List OAuthPhoto
  avatarUrl : Option String
deriving DecidableEq

/-- What AuthService.handleOAuthLogin resolves to on success: the user and
their session. -/
abbrev LoginData := UserIdentity × Session

/-- The shape of AuthService.handleOAuthLogin as the controller calls it:
email, name, profile picture URL and provider, against an identity store. -/
abbrev LoginFn := IdentityStore → String → String → Option String →
  AuthProvider → Except AuthError LoginData × IdentityStore

/-- The observable outcome of one controller callback invocation. -/
inductive CallbackResult where
  | unprocessable (msg : String)
  | escaped (e : AuthError)
  | body (d : LoginData)
  | successRedirect (d : LoginData)
  | failureRedirect (msg : String)
deriving DecidableEq

/-- The UnprocessableEntityException message thrown by all three callbacks. -/
def missingEmailMsg : String :=
  "Email information is missing from the OAuth provider data."

/-- The fixed message handleOAuthProcess logs and sends on any caught error. -/
def oauthFailureMsg : String :=
  "User attempted to log in with a different OAuth provider"

/-- The profile picture extraction photos[0]?.value of the GitHub and Google
callbacks: optional indexing, absent when the photos list is empty. -/
def profilePictureOf (photos : List OAuthPhoto) : Option String :=
  (photos.get? 0).map OAuthPhoto.value

/-- handleOAuthProcess of the controller: awaits handleOAuthLogin inside a
try/catch; on success sets the cookie and sends the success redirect; on
any caught error logs and sends the fixed failure redirect. -/
def handleOAuthProcess (login : LoginFn) (st : IdentityStore)
    (email name : String) (profilePictureUrl : Option String)
    (oauthProvider : AuthProvider) : CallbackResult × IdentityStore :=
  match login st email name profilePictureUrl oauthProvider with
  | (Except.ok d, st') => (CallbackResult.successRedirect d, st')
  | (Except.error _, st') =>
    (CallbackResult.failureRedirect oauthFailureMsg, st')

/-- githubOAuthCallback of the controller: throws the unprocessable-entity
error when the emails list is empty, otherwise returns the result of
handleOAuthLogin directly, with no catch around it. -/
def githubOAuthCallback (login : LoginFn) (st : IdentityStore)
    (u : OAuthReqUser) : CallbackResult × IdentityStore :=
  match u.emails with
  | [] => (CallbackResult.unprocessable missingEmailMsg, st)
  | e0 :: _ =>
    match login st e0.value u.displayName (profilePictureOf u.photos)
        AuthProvider.GITHUB with
    | (Except.ok d, st') => (CallbackResult.body d, st')
    | (Except.error e, st') => (CallbackResult.escaped e, st')

/-- gitlabOAuthCallback of the controller: throws the unprocessable-entity
error when the emails list is empty, otherwise delegates to
handleOAuthProcess with the avatarUrl field of the profile. -/
def gitlabOAuthCallback (login : LoginFn) (st : IdentityStore)
    (u : OAuthReqUser) : CallbackResult × IdentityStore :=
  match u.emails with
  | [] => (CallbackResult.unprocessable missingEmailMsg, st)
  | e0 :: _ =>
    handleOAuthProcess login st e0.value u.displayName u.avatarUrl
      AuthProvider.GITLAB

/-- googleOAuthCallback of the controller: throws the unprocessable-entity
error when the emails list is empty, otherwise delegates to
handleOAuthProcess with photos[0]?.value. -/
def googleOAuthCallback (login : LoginFn) (st : IdentityStore)
    (u : OAuthReqUser) : CallbackResult × IdentityStore :=
  match u.emails with
  | [] => (CallbackResult.unprocessable missingEmailMsg, st)
  | e0 :: _ =>
    handleOAuthProcess login st e0.value u.displayName
      (profilePictureOf u.photos) AuthProvider.GOOGLE

/-! ### Theorems -/

/-- After discarding the pending challenge for an email, lookup for that
email finds nothing. -/
theorem lookupOtp_removeOtp (s : OtpStore) (email : String) :
    lookupOtp (removeOtp s email) email = none := by
  simp only [lookupOtp, removeOtp, List.find?_eq_none, List.mem_filter]
  rintro p ⟨-, hp⟩
  simpa using hp

/-- C5: Verify applied to the token of Issue returns exactly the issued
userId at any check time not past the expiry, and fails with Expired at
any check time strictly past the expiry. -/
theorem session_roundtrip_c5 (secret now userId checkTime : Nat) :
    (checkTime ≤ now + sessionTtl →
      Verify secret checkTime (Issue secret now userId).token =
        Except.ok userId) ∧
    (now + sessionTtl < checkTime →
      Verify secret checkTime (Issue secret now userId).token =
        Except.error SessionVerifyError.Expired) := by
  constructor <;> intro h <;> simp [Verify, Issue] <;> omega

/-- Witness for C5 at secret 5, issue time 0, user 42. -/
theorem session_roundtrip_c5_witness :
    Verify 5 10 (Issue 5 0 42).token = Except.ok 42 ∧
    Verify 5 86401 (Issue 5 0 42).token =
      Except.error SessionVerifyError.Expired :=
  ⟨(session_roundtrip_c5 5 0 42 10).1 (by decide),
   (session_roundtrip_c5 5 0 42 86401).2 (by decide)⟩

/-- C6: every OAuth callback (GitHub, GitLab, Google) throws the
missing-email unprocessable-entity error exactly when the provider
yields an empty email list, and in that case the identity store is
untouched and the result does not depend on the login service at all —
no identity resolution or session issuance occurs. -/
theorem missing_email_rejection_c6 (login : LoginFn) (st : IdentityStore)
    (u : OAuthReqUser) :
    ((githubOAuthCallback login st u).1 =
        CallbackResult.unprocessable missingEmailMsg ↔ u.emails = []) ∧
    ((gitlabOAuthCallback login st u).1 =
        CallbackResult.unprocessable missingEmailMsg ↔ u.emails = []) ∧
    ((googleOAuthCallback login st u).1 =
        CallbackResult.unprocessable missingEmailMsg ↔ u.emails = []) ∧
    (u.emails = [] →
      githubOAuthCallback login st u =
          (CallbackResult.unprocessable missingEmailMsg, st) ∧
      gitlabOAuthCallback login st u =
          (CallbackResult.unprocessable missingEmailMsg, st) ∧
      googleOAuthCallback login st u =
          (CallbackResult.unprocessable missingEmailMsg, st)) := by
  rcases hu : u.emails with _ | ⟨e0, rest⟩
  · simp [githubOAuthCallback, gitlabOAuthCallback, googleOAuthCallback, hu]
  · refine ⟨?_, ?_, ?_, by simp [hu]⟩
    · rcases hl : login st e0.value u.displayName (profilePictureOf u.photos)
        AuthProvider.GITHUB with ⟨r, st'⟩
      cases r <;> simp [githubOAuthCallback, hu, hl]
    · rcases hl : login st e0.value u.displayName u.avatarUrl
        AuthProvider.GITLAB with ⟨r, st'⟩
      cases r <;> simp [gitlabOAuthCallback, handleOAuthProcess, hu, hl]
    · rcases hl : login st e0.value u.displayName (profilePictureOf u.photos)
        AuthProvider.GOOGLE with ⟨r, st'⟩
      cases r <;> simp [googleOAuthCallback, handleOAuthProcess, hu, hl]

/-- Witness for C6: a profile with an empty email list is rejected by all
three callbacks with the store untouched, for a concrete login service. -/
theorem missing_email_rejection_c6_witness :
    githubOAuthCallback
        (fun st _ _ _ _ => (Except.error AuthError.ProviderConflict, st))
        { users := [], nextId := 0 }
        { emails := [], displayName := "Bob", photos := [],
          avatarUrl := none } =
      (CallbackResult.unprocessable missingEmailMsg,
       { users := [], nextId := 0 }) :=
  ((missing_email_rejection_c6
      (fun st _ _ _ _ => (Except.error AuthError.ProviderConflict, st))
      { users := [], nextId := 0 }
      { emails := [], displayName := "Bob", photos := [],
        avatarUrl := none }).2.2.2 rfl).1

/-- C7: when the OAuth flow fails, the externally visible outcome of
handleOAuthProcess is the same fixed failure redirect in any two failing
runs — in particular it is identical regardless of which provider the
conflicting account is registered with, so the external caller learns
nothing beyond generic authentication failure. -/
theorem conflict_generic_message_c7
    (login1 login2 : LoginFn) (st1 st2 st1' st2' : IdentityStore)
    (email1 email2 name1 name2 : String) (pic1 pic2 : Option String)
    (prov1 prov2 : AuthProvider) (e1 e2 : AuthError)
    (h1 : login1 st1 email1 name1 pic1 prov1 = (Except.error e1, st1'))
    (h2 : login2 st2 email2 name2 pic2 prov2 = (Except.error e2, st2')) :
    (handleOAuthProcess login1 st1 email1 name1 pic1 prov1).1 =
      (handleOAuthProcess login2 st2 email2 name2 pic2 prov2).1 ∧
    (handleOAuthProcess login1 st1 email1 name1 pic1 prov1).1 =
      CallbackResult.failureRedirect oauthFailureMsg := by
  simp [handleOAuthProcess, h1, h2]

/-- Witness for C7: two runs failing with ProviderConflict over accounts
owned by different providers produce the same external failure output. -/
theorem conflict_generic_message_c7_witness :
    (handleOAuthProcess
        (fun st _ _ _ _ => (Except.error AuthError.ProviderConflict, st))
        { users := [], nextId := 0 } "b@x.com" "Bob" none
        AuthProvider.GOOGLE).1 =
      (handleOAuthProcess
        (fun st _ _ _ _ => (Except.error AuthError.ProviderConflict, st))
        { users := [], nextId := 1 } "b@x.com" "Bob" none
        AuthProvider.GITLAB).1 :=
  (conflict_generic_message_c7
    (fun st _ _ _ _ => (Except.error AuthError.ProviderConflict, st))
    (fun st _ _ _ _ => (Except.error AuthError.ProviderConflict, st))
    { users := [], nextId := 0 } { users := [], nextId := 1 }
    { users := [], nextId := 0 } { users := [], nextId := 1 }
    "b@x.com" "b@x.com" "Bob" "Bob" none none
    AuthProvider.GOOGLE AuthProvider.GITLAB
    AuthError.ProviderConflict AuthError.ProviderConflict rfl rfl).1

/-- C8: the GitLab and Google callbacks never let a resolution error
escape — every login error is converted by the catch into a redirect —
while the GitHub callback performs no catch, so a login error propagates
out of it unchanged. -/
theorem callback_error_handling_asymmetry_c8 (login : LoginFn)
    (st st' : IdentityStore) (u : OAuthReqUser) (e0 : OAuthEmail)
    (rest : List OAuthEmail) (err : AuthError) :
    (∀ e, (gitlabOAuthCallback login st u).1 ≠ CallbackResult.escaped e) ∧
    (∀ e, (googleOAuthCallback login st u).1 ≠ CallbackResult.escaped e) ∧
    (u.emails = e0 :: rest →
      login st e0.value u.displayName (profilePictureOf u.photos)
          AuthProvider.GITHUB = (Except.error err, st') →
      githubOAuthCallback login st u = (CallbackResult.escaped err, st')) := by
  refine ⟨fun e => ?_, fun e => ?_, fun hu hl => ?_⟩
  · rcases hu : u.emails with _ | ⟨f0, frest⟩
    · simp [gitlabOAuthCallback, hu]
    · rcases hl : login st f0.value u.displayName u.avatarUrl
        AuthProvider.GITLAB with ⟨r, st''⟩
      cases r <;> simp [gitlabOAuthCallback, handleOAuthProcess, hu, hl]
  · rcases hu : u.emails with _ | ⟨f0, frest⟩
    · simp [googleOAuthCallback, hu]
    · rcases hl : login st f0.value u.displayName (profilePictureOf u.photos)
        AuthProvider.GOOGLE with ⟨r, st''⟩
      cases r <;> simp [googleOAuthCallback, handleOAuthProcess, hu, hl]
  · simp [githubOAuthCallback, hu, hl]

/-- Witness for C8: a login service that always fails is swallowed by the
GitLab callback but escapes the GitHub callback. -/
theorem callback_error_handling_asymmetry_c8_witness :
    githubOAuthCallback
        (fun st _ _ _ _ => (Except.error AuthError.ProviderConflict, st))
        { users := [], nextId := 0 }
        { emails := [{ value := "b@x.com" }], displayName := "Bob",
          photos := [], avatarUrl := none } =
      (CallbackResult.escaped AuthError.ProviderConflict,
       { users := [], nextId := 0 }) :=
  (callback_error_handling_asymmetry_c8
    (fun st _ _ _ _ => (Except.error AuthError.ProviderConflict, st))
    { users := [], nextId := 0 } { users := [], nextId := 0 }
    { emails := [{ value := "b@x.com" }], displayName := "Bob",
      photos := [], avatarUrl := none }
    { value := "b@x.com" } [] AuthError.ProviderConflict).2.2 rfl rfl

/-- C10: with a non-empty email list and an empty photos list, the GitHub
and Google callbacks do not fail: the profile picture is simply absent
(none) and the flow proceeds to the login service. -/
theorem empty_photos_tolerated_c10 (login : LoginFn) (st : IdentityStore)
    (u : OAuthReqUser) (e0 : OAuthEmail) (rest : List OAuthEmail)
    (hemails : u.emails = e0 :: rest) (hphotos : u.photos = []) :
    profilePictureOf u.photos = none ∧
    (∀ m, (githubOAuthCallback login st u).1 ≠
      CallbackResult.unprocessable m) ∧
    (∀ m, (googleOAuthCallback login st u).1 ≠
      CallbackResult.unprocessable m) ∧
    githubOAuthCallback login st u =
      (match login st e0.value u.displayName none AuthProvider.GITHUB with
       | (Except.ok d, st') => (CallbackResult.body d, st')
       | (Except.error e, st') => (CallbackResult.escaped e, st')) ∧
    googleOAuthCallback login st u =
      handleOAuthProcess login st e0.value u.displayName none
        AuthProvider.GOOGLE := by
  have hpic : profilePictureOf u.photos = none := by
    simp [profilePictureOf, hphotos]
  refine ⟨hpic, fun m => ?_, fun m => ?_, ?_, ?_⟩
  · rcases hl : login st e0.value u.displayName (profilePictureOf u.photos)
      AuthProvider.GITHUB with ⟨r, st'⟩
    cases r <;> simp [githubOAuthCallback, hemails, hl]
  · rcases hl : login st e0.value u.displayName (profilePictureOf u.photos)
      AuthProvider.GOOGLE with ⟨r, st'⟩
    cases r <;> simp [googleOAuthCallback, handleOAuthProcess, hemails, hl]
  · simp [githubOAuthCallback, hemails, hpic]
  · simp [googleOAuthCallback, hemails, hpic]

/-- Witness for C10: a GitHub profile with one email and no photos logs in
with an absent profile picture. -/
theorem empty_photos_tolerated_c10_witness :
    githubOAuthCallback
        (fun st _ _ pic _ =>
          (Except.ok ({ userId := 0, email := "b@x.com", displayName := "Bob",
                        avatarUrl := pic, linkedProviders := [] },
                      Issue 0 0 0), st))
        { users := [], nextId := 0 }
        { emails := [{ value := "b@x.com" }], displayName := "Bob",
          photos := [], avatarUrl := none } =
      (CallbackResult.body
        ({ userId := 0, email := "b@x.com", displayName := "Bob",
           avatarUrl := none, linkedProviders := [] }, Issue 0 0 0),
       { users := [], nextId := 0 }) :=
  (empty_photos_tolerated_c10
    (fun st _ _ pic _ =>
      (Except.ok ({ userId := 0, email := "b@x.com", displayName := "Bob",
                    avatarUrl := pic, linkedProviders := [] },
                  Issue 0 0 0), st))
    { users := [], nextId := 0 }
    { emails := [{ value := "b@x.com" }], displayName := "Bob",
      photos := [], avatarUrl := none }
    { value := "b@x.com" } [] rfl rfl).2.2.2.1

/-- C1: when an identity for an email was established via provider A and the
policy forbids silent cross-provider linking, CompleteOAuth via a
different provider B fails with ProviderConflict and leaves the whole
state untouched (no second identity), while a subsequent CompleteOAuth
via provider A again succeeds with the same userId and the refreshed
displayName. -/
theorem oauth_cross_provider_conflict_c1 (st : CoreState)
    (secret now1 now2 : Nat) (email sidA sidB name1 name2 : String)
    (A B : AuthProvider) (av1 av2 : Option String) (u0 : UserIdentity)
    (hne : email ≠ "")
    (hfind : st.ids.users.find? (fun u => u.email == email) = some u0)
    (hlinked : u0.linkedProviders = [(A, sidA)])
    (hBA : B ≠ A) :
    CompleteOAuth st false secret now1 email B sidB name1 av1 =
      (Except.error AuthError.ProviderConflict, st) ∧
    ∃ u', CompleteOAuth st false secret now2 email A sidA name2 av2 =
        (Except.ok (u', Issue secret now2 u'.userId),
         { st with ids := st.ids.updateByEmail u' }) ∧
      u'.userId = u0.userId ∧ u'.displayName = name2 := by
  have hBnot : (B, sidB) ∉ u0.linkedProviders := by
    simp only [hlinked, List.mem_singleton, Prod.mk.injEq, not_and]
    intro h
    exact absurd h hBA
  constructor
  · simp [CompleteOAuth, hne, ResolveOrLink, hfind, hBnot]
  · refine ⟨{ u0 with displayName := name2, avatarUrl := av2 }, ?_, rfl, rfl⟩
    have hAin : (A, sidA) ∈ u0.linkedProviders := by simp [hlinked]
    simp [CompleteOAuth, hne, ResolveOrLink, hfind, hAin]

/-- Witness for C1: a store owning b@x.com through GitHub rejects a Google
login for the same email and leaves the state unchanged. -/
theorem oauth_cross_provider_conflict_c1_witness :
    CompleteOAuth
        { otps := [],
          ids := { users := [{ userId := 7, email := "b@x.com",
                               displayName := "Bob", avatarUrl := none,
                               linkedProviders :=
                                 [(AuthProvider.GITHUB, "gh123")] }],
                   nextId := 8 } }
        false 0 5 "b@x.com" AuthProvider.GOOGLE "go456" "Bob" none =
      (Except.error AuthError.ProviderConflict,
       { otps := [],
         ids := { users := [{ userId := 7, email := "b@x.com",
                              displayName := "Bob", avatarUrl := none,
                              linkedProviders :=
                                [(AuthProvider.GITHUB, "gh123")] }],
                  nextId := 8 } }) :=
  (oauth_cross_provider_conflict_c1
    { otps := [],
      ids := { users := [{ userId := 7, email := "b@x.com",
                           displayName := "Bob", avatarUrl := none,
                           linkedProviders :=
                             [(AuthProvider.GITHUB, "gh123")] }],
               nextId := 8 } }
    0 5 5 "b@x.com" "gh123" "go456" "Bob" "Bob"
    AuthProvider.GITHUB AuthProvider.GOOGLE none none
    { userId := 7, email := "b@x.com", displayName := "Bob",
      avatarUrl := none,
      linkedProviders := [(AuthProvider.GITHUB, "gh123")] }
    (by decide) (by decide) rfl (by decide)).1

/-- C3: OtpStore.Consume fails with OtpNotFound when no challenge is
pending; with OtpExpired past the expiry, discarding the record; succeeds
on a code match, discarding the record; on a mismatch decrements the
attempt counter and fails with OtpMismatch, or with OtpAttemptsExhausted
when the counter reaches zero, discarding the record — and after an
OtpAttemptsExhausted outcome every further confirmation for that email
fails with OtpNotFound until a new OTP is created. -/
theorem otp_consume_cases_c3 (s : OtpStore) (now : Nat)
    (email cand : String) :
    (lookupOtp s email = none →
      Consume s now email cand = (Except.error AuthError.OtpNotFound, s)) ∧
    (∀ p, lookupOtp s email = some p →
      (p.expiresAt < now →
        Consume s now email cand =
          (Except.error AuthError.OtpExpired, removeOtp s email)) ∧
      (¬ p.expiresAt < now → p.code = cand →
        Consume s now email cand = (Except.ok (), removeOtp s email)) ∧
      (¬ p.expiresAt < now → p.code ≠ cand → p.attemptsRemaining - 1 = 0 →
        Consume s now email cand =
          (Except.error AuthError.OtpAttemptsExhausted, removeOtp s email)) ∧
      (¬ p.expiresAt < now → p.code ≠ cand → p.attemptsRemaining - 1 ≠ 0 →
        Consume s now email cand =
          (Except.error AuthError.OtpMismatch, decrementOtp s email))) ∧
    ((Consume s now email cand).1 =
        Except.error AuthError.OtpAttemptsExhausted →
      ∀ now' cand',
        (Consume (Consume s now email cand).2 now' email cand').1 =
          Except.error AuthError.OtpNotFound) := by
  refine ⟨fun h => by simp [Consume, h], fun p hp => ?_,
    fun hex now' cand' => ?_⟩
  · refine ⟨fun h1 => by simp [Consume, hp, h1],
      fun h1 h2 => by simp [Consume, hp, h1, h2],
      fun h1 h2 h3 => by simp [Consume, hp, h1, h2, h3],
      fun h1 h2 h3 => by simp [Consume, hp, h1, h2, h3]⟩
  · have h2 : (Consume s now email cand).2 = removeOtp s email := by
      rcases hl : lookupOtp s email with _ | p
      · simp [Consume, hl] at hex
      · simp only [Consume, hl] at hex ⊢
        split_ifs at hex ⊢ <;> simp_all
    rw [h2]
    simp [Consume, lookupOtp_removeOtp]

/-- Witness for C3 exercising every branch on concrete stores. -/
theorem otp_consume_cases_c3_witness :
    Consume [] 0 "a@x.com" "111111" =
      (Except.error AuthError.OtpNotFound, []) ∧
    Consume [{ email := "a@x.com", code := "111111", expiresAt := 3,
               attemptsRemaining := 3 }] 9 "a@x.com" "111111" =
      (Except.error AuthError.OtpExpired, []) ∧
    Consume [{ email := "a@x.com", code := "111111", expiresAt := 3,
               attemptsRemaining := 3 }] 1 "a@x.com" "111111" =
      (Except.ok (), []) ∧
    Consume [{ email := "a@x.com", code := "111111", expiresAt := 3,
               attemptsRemaining := 1 }] 1 "a@x.com" "222222" =
      (Except.error AuthError.OtpAttemptsExhausted, []) ∧
    Consume [{ email := "a@x.com", code := "111111", expiresAt := 3,
               attemptsRemaining := 3 }] 1 "a@x.com" "222222" =
      (Except.error AuthError.OtpMismatch,
       [{ email := "a@x.com", code := "111111", expiresAt := 3,
          attemptsRemaining := 2 }]) ∧
    (Consume (Consume [{ email := "a@x.com", code := "111111",
                         expiresAt := 3, attemptsRemaining := 1 }] 1
        "a@x.com" "222222").2 1 "a@x.com"
        "111111").1 = Except.error AuthError.OtpNotFound := by
  refine ⟨(otp_consume_cases_c3 [] 0 "a@x.com" "111111").1 (by decide),
    ?_, ?_, ?_, ?_, ?_⟩
  · exact ((otp_consume_cases_c3 _ 9 "a@x.com" "111111").2.1
      { email := "a@x.com", code := "111111", expiresAt := 3,
        attemptsRemaining := 3 } (by decide)).1 (by decide)
  · exact ((otp_consume_cases_c3 _ 1 "a@x.com" "111111").2.1
      { email := "a@x.com", code := "111111", expiresAt := 3,
        attemptsRemaining := 3 } (by decide)).2.1 (by decide) rfl
  · exact ((otp_consume_cases_c3 _ 1 "a@x.com" "222222").2.1
      { email := "a@x.com", code := "111111", expiresAt := 3,
        attemptsRemaining := 1 } (by decide)).2.2.1 (by decide) (by decide)
      (by decide)
  · exact ((otp_consume_cases_c3 _ 1 "a@x.com" "222222").2.1
      { email := "a@x.com", code := "111111", expiresAt := 3,
        attemptsRemaining := 3 } (by decide)).2.2.2 (by decide) (by decide)
      (by decide)
  · exact (otp_consume_cases_c3 [{ email := "a@x.com", code := "111111",
                                    expiresAt := 3, attemptsRemaining := 1 }]
        1 "a@x.com" "222222").2.2 (by rfl) 1 "111111"

/-- Filtering for an email after discarding it yields nothing. -/
theorem filter_removeOtp (s : OtpStore) (email : String) :
    (removeOtp s email).filter (fun p => p.email == email) = [] := by
  induction s with
  | nil => rfl
  | cons p t ih =>
    by_cases h : p.email = email <;>
      simp [removeOtp, List.filter_cons, h, ih]

/-- C4: creating an OTP twice in succession for the same email leaves
exactly one live challenge, holding the second code; confirming the
first code afterwards fails with OtpMismatch while confirming the second
succeeds. -/
theorem otp_create_overwrites_c4 (s : OtpStore) (now1 now2 now3 : Nat)
    (email c1 c2 : String) (hcode : c1 ≠ c2)
    (hlive : ¬ now2 + otpTtl < now3) :
    lookupOtp (CreateOtp (CreateOtp s now1 email c1) now2 email c2) email =
      some { email := email, code := c2, expiresAt := now2 + otpTtl,
             attemptsRemaining := maxOtpAttempts } ∧
    ((CreateOtp (CreateOtp s now1 email c1) now2 email c2).filter
        (fun p => p.email == email)).length = 1 ∧
    (Consume (CreateOtp (CreateOtp s now1 email c1) now2 email c2) now3
        email c1).1 = Except.error AuthError.OtpMismatch ∧
    (Consume (CreateOtp (CreateOtp s now1 email c1) now2 email c2) now3
        email c2).1 = Except.ok () := by
  have hlook : lookupOtp (CreateOtp (CreateOtp s now1 email c1) now2 email c2)
      email = some { email := email, code := c2, expiresAt := now2 + otpTtl,
                     attemptsRemaining := maxOtpAttempts } := by
    simp [lookupOtp, CreateOtp]
  refine ⟨hlook, ?_, ?_, ?_⟩
  · simp [CreateOtp, List.filter_cons, filter_removeOtp]
  · simp [Consume, hlook, hlive, maxOtpAttempts, hcode.symm]
  · simp [Consume, hlook, hlive]

/-- Witness for C4: two successive OTP requests for one email, then both
codes tried. -/
theorem otp_create_overwrites_c4_witness :
    (Consume (CreateOtp (CreateOtp [] 0 "a@x.com" "111111") 0 "a@x.com"
        "222222") 0 "a@x.com" "111111").1 =
      Except.error AuthError.OtpMismatch ∧
    (Consume (CreateOtp (CreateOtp [] 0 "a@x.com" "111111") 0 "a@x.com"
        "222222") 0 "a@x.com" "222222").1 = Except.ok () :=
  ⟨(otp_create_overwrites_c4 [] 0 0 0 "a@x.com" "111111" "222222"
      (by decide) (by decide)).2.2.1,
   (otp_create_overwrites_c4 [] 0 0 0 "a@x.com" "111111" "222222"
      (by decide) (by decide)).2.2.2⟩

/-- The concrete pre-state for the C2 analysis: one user owning a@x.com,
established through the GitHub subject x. -/
def c2State : CoreState :=
  { otps := [],
    ids := { users := [{ userId := 0, email := "a@x.com",
                         displayName := "Alice", avatarUrl := none,
                         linkedProviders := [(AuthProvider.GITHUB, "x")] }],
             nextId := 1 } }

/-- C2 counterexample: from a state satisfying both uniqueness invariants,
CompleteOAuth for the unseen email c@x.com asserting the GitHub subject x
that is already linked to the owner of a@x.com creates a second user
seeded with the same (provider, providerSubjectId) pair, so the pair now
maps to two distinct userIds: the claimed preservation fails. -/
theorem identity_invariant_c2_counterexample :
    EmailsUnique c2State.ids ∧ PairsUnique c2State.ids ∧
    ¬ PairsUnique (CompleteOAuth c2State false 0 0 "c@x.com"
        AuthProvider.GITHUB "x" "Carol" none).2.ids := by
  decide

/-- The record found by the email predicate carries that email. -/
theorem email_of_found {s : IdentityStore} {email : String}
    {u : UserIdentity}
    (h : s.users.find? (fun v => v.email == email) = some u) :
    u.email = email := by
  simpa using List.find?_some h

/-- Replacing the record with a given email never changes the multiset of
emails held in the store. -/
theorem updateByEmail_map_email (s : IdentityStore) (u : UserIdentity) :
    (s.updateByEmail u).users.map UserIdentity.email =
      s.users.map UserIdentity.email := by
  unfold IdentityStore.updateByEmail
  simp only [List.map_map]
  apply List.map_congr_left
  intro v hv
  by_cases h : v.email = u.email
  · simp [Function.comp, h]
  · simp [Function.comp, h]

/-- Replacing a record by email preserves email uniqueness. -/
theorem updateByEmail_emailsUnique {s : IdentityStore} (u : UserIdentity)
    (hE : EmailsUnique s) : EmailsUnique (s.updateByEmail u) := by
  unfold EmailsUnique at *
  rw [updateByEmail_map_email]
  exact hE

/-- Appending a record whose email is absent preserves email uniqueness. -/
theorem emailsUnique_append {s : IdentityStore} {email : String}
    (u : UserIdentity) (n : Nat) (hu : u.email = email)
    (hE : EmailsUnique s)
    (hnone : s.users.find? (fun v => v.email == email) = none) :
    EmailsUnique { users := s.users ++ [u], nextId := n } := by
  unfold EmailsUnique at *
  simp only [List.map_append, List.map_cons, List.map_nil]
  rw [List.nodup_append]
  refine ⟨hE, List.nodup_singleton _, fun a ha hb => ?_⟩
  simp only [List.mem_singleton] at hb
  subst hb
  rw [List.mem_map] at ha
  obtain ⟨v, hv, hveq⟩ := ha
  have hne := List.find?_eq_none.mp hnone v hv
  simp only [beq_iff_eq] at hne
  exact hne (hveq.trans hu)

/-- Pair uniqueness transfers along any store whose records all take
their userId and linked pairs from records of the original store. -/
theorem pairsUnique_of_sim (s t : IdentityStore) (hP : PairsUnique s)
    (hsim : ∀ w ∈ t.users, ∃ v ∈ s.users,
      w.userId = v.userId ∧ w.linkedProviders = v.linkedProviders) :
    PairsUnique t := by
  intro w hw w2 hw2 pr hpr hpr2
  obtain ⟨v, hv, hid, hlp⟩ := hsim w hw
  obtain ⟨v2, hv2, hid2, hlp2⟩ := hsim w2 hw2
  rw [hid, hid2]
  exact hP v hv v2 hv2 pr (by rwa [hlp] at hpr) (by rwa [hlp2] at hpr2)

/-- Linking one more pair onto the record owning the target email keeps
pairs unique, provided the incoming pair is linked nowhere outside that
email. -/
theorem pairsUnique_link (s : IdentityStore) (u0 u' : UserIdentity)
    (email : String) (prov : AuthProvider) (sid : String)
    (hE : EmailsUnique s) (hP : PairsUnique s)
    (hu0mem : u0 ∈ s.users) (hu0email : u0.email = email)
    (hfresh : ∀ v ∈ s.users, (prov, sid) ∈ v.linkedProviders →
      v.email = email)
    (hid : u'.userId = u0.userId) (hem : u'.email = u0.email)
    (hlp : u'.linkedProviders = (prov, sid) :: u0.linkedProviders) :
    PairsUnique (s.updateByEmail u') := by
  have hE' : (s.users.map UserIdentity.email).Nodup := hE
  have inj := List.inj_on_of_nodup_map hE'
  have hveq : ∀ v ∈ s.users, v.email = u'.email → v = u0 := by
    intro v hv he
    exact inj hv hu0mem (he.trans hem)
  intro w hw w2 hw2 pr hpr hpr2
  simp only [IdentityStore.updateByEmail, List.mem_map] at hw hw2
  obtain ⟨v, hv, rfl⟩ := hw
  obtain ⟨v2, hv2, rfl⟩ := hw2
  simp only [beq_iff_eq] at hpr hpr2 ⊢
  by_cases hb : v.email = u'.email
  · rw [if_pos hb] at hpr ⊢
    by_cases hb2 : v2.email = u'.email
    · rw [if_pos hb2]
    · rw [if_neg hb2] at hpr2 ⊢
      rw [hlp] at hpr
      rcases List.mem_cons.mp hpr with rfl | hpr0
      · exact absurd (by rw [hfresh v2 hv2 hpr2, hem, hu0email]) hb2
      · rw [hid]
        exact hP u0 hu0mem v2 hv2 pr hpr0 hpr2
  · rw [if_neg hb] at hpr ⊢
    by_cases hb2 : v2.email = u'.email
    · rw [if_pos hb2] at hpr2 ⊢
      rw [hlp] at hpr2
      rcases List.mem_cons.mp hpr2 with rfl | hpr0
      · exact absurd (by rw [hfresh v hv hpr, hem, hu0email]) hb
      · rw [hid]
        exact hP v hv u0 hu0mem pr hpr hpr0
    · rw [if_neg hb2] at hpr2 ⊢
      exact hP v hv v2 hv2 pr hpr hpr2

/-- ResolveByEmail preserves both store invariants unconditionally. -/
theorem resolveByEmail_inv (s : IdentityStore) (email : String)
    (hE : EmailsUnique s) (hP : PairsUnique s) :
    EmailsUnique (ResolveByEmail s email).2 ∧
    PairsUnique (ResolveByEmail s email).2 := by
  rcases h : s.users.find? (fun u => u.email == email) with _ | u
  · have h2 : (ResolveByEmail s email).2 =
        { users := s.users ++ [{ userId := s.nextId, email := email,
                                 displayName := "", avatarUrl := none,
                                 linkedProviders := [] }],
          nextId := s.nextId + 1 } := by
      simp [ResolveByEmail, h]
    rw [h2]
    refine ⟨emailsUnique_append _ _ rfl hE h, ?_⟩
    intro w hw w2 hw2 pr hpr hpr2
    simp only [List.mem_append, List.mem_singleton] at hw hw2
    rcases hw with hw | hw
    · rcases hw2 with hw2 | hw2
      · exact hP w hw w2 hw2 pr hpr hpr2
      · subst hw2
        simp at hpr2
    · subst hw
      simp at hpr
  · have h2 : (ResolveByEmail s email).2 = s := by
      simp [ResolveByEmail, h]
    rw [h2]
    exact ⟨hE, hP⟩

/-- ResolveOrLink preserves both store invariants, provided the asserted
(provider, providerSubjectId) pair is not already linked to an identity
holding a different email. -/
theorem resolveOrLink_inv (s : IdentityStore) (allow : Bool) (email : String)
    (prov : AuthProvider) (sid name : String) (av : Option String)
    (hE : EmailsUnique s) (hP : PairsUnique s)
    (hfresh : ∀ v ∈ s.users, (prov, sid) ∈ v.linkedProviders →
      v.email = email) :
    EmailsUnique (ResolveOrLink s allow email prov sid name av).2 ∧
    PairsUnique (ResolveOrLink s allow email prov sid name av).2 := by
  rcases h : s.users.find? (fun u => u.email == email) with _ | u0
  · have h2 : (ResolveOrLink s allow email prov sid name av).2 =
        { users := s.users ++ [{ userId := s.nextId, email := email,
                                 displayName := name, avatarUrl := av,
                                 linkedProviders := [(prov, sid)] }],
          nextId := s.nextId + 1 } := by
      simp [ResolveOrLink, h]
    rw [h2]
    refine ⟨emailsUnique_append _ _ rfl hE h, ?_⟩
    intro w hw w2 hw2 pr hpr hpr2
    simp only [List.mem_append, List.mem_singleton] at hw hw2
    have hnone := List.find?_eq_none.mp h
    rcases hw with hw | hw
    · rcases hw2 with hw2 | hw2
      · exact hP w hw w2 hw2 pr hpr hpr2
      · subst hw2
        simp only [List.mem_singleton] at hpr2
        subst hpr2
        have := hnone w hw
        simp only [beq_iff_eq] at this
        exact absurd (hfresh w hw hpr) this
    · subst hw
      simp only [List.mem_singleton] at hpr
      subst hpr
      rcases hw2 with hw2 | hw2
      · have := hnone w2 hw2
        simp only [beq_iff_eq] at this
        exact absurd (hfresh w2 hw2 hpr2) this
      · subst hw2
        rfl
  · have hu0mem : u0 ∈ s.users := List.mem_of_find?_eq_some h
    have hu0email : u0.email = email := email_of_found h
    by_cases hmem : (prov, sid) ∈ u0.linkedProviders
    · have h2 : (ResolveOrLink s allow email prov sid name av).2 =
          s.updateByEmail
            { u0 with displayName := name, avatarUrl := av } := by
        simp [ResolveOrLink, h, hmem]
      rw [h2]
      refine ⟨updateByEmail_emailsUnique _ hE, ?_⟩
      apply pairsUnique_of_sim s _ hP
      intro w hw
      simp only [IdentityStore.updateByEmail, List.mem_map] at hw
      obtain ⟨v, hv, rfl⟩ := hw
      by_cases hb : v.email =
          ({ u0 with displayName := name, avatarUrl := av } :
            UserIdentity).email
      · refine ⟨u0, hu0mem, ?_, ?_⟩ <;> simp [hb]
      · refine ⟨v, hv, ?_, ?_⟩ <;> simp [hb]
    · cases allow with
      | false =>
        have h2 : (ResolveOrLink s false email prov sid name av).2 = s := by
          simp [ResolveOrLink, h, hmem]
        rw [h2]
        exact ⟨hE, hP⟩
      | true =>
        have h2 : (ResolveOrLink s true email prov sid name av).2 =
            s.updateByEmail
              { u0 with
                displayName := name
                avatarUrl := av
                linkedProviders := (prov, sid) :: u0.linkedProviders } := by
          simp [ResolveOrLink, h, hmem]
        rw [h2]
        refine ⟨updateByEmail_emailsUnique _ hE, ?_⟩
        exact pairsUnique_link s u0 _ email prov sid hE hP hu0mem hu0email
          hfresh rfl rfl rfl

/-- C2 amended: RequestOtp and ConfirmOtp (through ResolveByEmail) preserve
both identity-store invariants unconditionally, and CompleteOAuth
(through ResolveOrLink) preserves them provided the incoming
(provider, providerSubjectId) assertion is not already linked to an
identity holding a different email — the proviso the counterexample
shows to be necessary. -/
theorem identity_invariant_preservation_c2 (st : CoreState)
    (secret now : Nat)
    (reqEmail reqCode otpEmail cand oaEmail sid name : String)
    (prov : AuthProvider) (av : Option String) (allow : Bool)
    (hE : EmailsUnique st.ids) (hP : PairsUnique st.ids) :
    (EmailsUnique (RequestOtp st now reqEmail reqCode).ids ∧
     PairsUnique (RequestOtp st now reqEmail reqCode).ids) ∧
    (EmailsUnique (ConfirmOtp st secret now otpEmail cand).2.ids ∧
     PairsUnique (ConfirmOtp st secret now otpEmail cand).2.ids) ∧
    (EmailsUnique (ResolveByEmail st.ids otpEmail).2 ∧
     PairsUnique (ResolveByEmail st.ids otpEmail).2) ∧
    ((∀ v ∈ st.ids.users, (prov, sid) ∈ v.linkedProviders →
        v.email = oaEmail) →
      (EmailsUnique
          (CompleteOAuth st allow secret now oaEmail prov sid name
            av).2.ids ∧
       PairsUnique
          (CompleteOAuth st allow secret now oaEmail prov sid name
            av).2.ids) ∧
      (EmailsUnique
          (ResolveOrLink st.ids allow oaEmail prov sid name av).2 ∧
       PairsUnique
          (ResolveOrLink st.ids allow oaEmail prov sid name av).2)) := by
  refine ⟨⟨hE, hP⟩, ?_, resolveByEmail_inv st.ids otpEmail hE hP,
    fun hfresh => ⟨?_, resolveOrLink_inv st.ids allow oaEmail prov sid name
      av hE hP hfresh⟩⟩
  · rcases hc : Consume st.otps now otpEmail cand with ⟨r, otps'⟩
    rcases r with e | x
    · have h2 : (ConfirmOtp st secret now otpEmail cand).2.ids = st.ids := by
        simp [ConfirmOtp, hc]
      rw [h2]
      exact ⟨hE, hP⟩
    · have h2 : (ConfirmOtp st secret now otpEmail cand).2.ids =
          (ResolveByEmail st.ids otpEmail).2 := by
        simp [ConfirmOtp, hc]
      rw [h2]
      exact resolveByEmail_inv st.ids otpEmail hE hP
  · by_cases he : oaEmail = ""
    · have h2 : (CompleteOAuth st allow secret now oaEmail prov sid name
          av).2.ids = st.ids := by
        simp [CompleteOAuth, he]
      rw [h2]
      exact ⟨hE, hP⟩
    · rcases hr : ResolveOrLink st.ids allow oaEmail prov sid name av
        with ⟨r, ids'⟩
      have hres := resolveOrLink_inv st.ids allow oaEmail prov sid name av
        hE hP hfresh
      rw [hr] at hres
      have h2 : (CompleteOAuth st allow secret now oaEmail prov sid name
          av).2.ids = ids' := by
        rcases r with e | u <;> simp [CompleteOAuth, he, hr]
      rw [h2]
      exact hres

/-- Witness for the amended C2 at the concrete pre-state, covering the OTP
request, an OTP confirmation and a fresh Google login for a new email. -/
theorem identity_invariant_preservation_c2_witness :
    (EmailsUnique (RequestOtp c2State 0 "a@x.com" "111111").ids ∧
     PairsUnique (RequestOtp c2State 0 "a@x.com" "111111").ids) ∧
    (EmailsUnique (ConfirmOtp c2State 0 0 "a@x.com" "111111").2.ids ∧
     PairsUnique (ConfirmOtp c2State 0 0 "a@x.com" "111111").2.ids) ∧
    (EmailsUnique (CompleteOAuth c2State false 0 0 "b@x.com"
        AuthProvider.GOOGLE "g" "Bob" none).2.ids ∧
     PairsUnique (CompleteOAuth c2State false 0 0 "b@x.com"
        AuthProvider.GOOGLE "g" "Bob" none).2.ids) := by
  have h := identity_invariant_preservation_c2 c2State 0 0 "a@x.com"
    "111111" "a@x.com" "111111" "b@x.com" "g" "Bob" AuthProvider.GOOGLE
    none false (by decide) (by decide)
  exact ⟨h.1, h.2.1, (h.2.2.2 (by decide)).1⟩
